import Mathlib

/-!
Shallow embedding of the quiz submission subsystem of the repository
(`quizzes/models.py`, `quizzes/views.py`, `quizzes/serializers.py`).

Datetimes are modelled as natural numbers of seconds; `maxDT` is the largest
representable datetime (Python's `datetime.max` as a Unix timestamp).  A Python
`datetime + timedelta` that would exceed `datetime.max` raises `OverflowError`;
in the model this corresponds to the sum exceeding `maxDT`.  Scores are
modelled as rationals (Python floats, used here only through exact small
arithmetic).
-/

namespace Quizzes

/-- Largest representable datetime, in seconds (Python `datetime.max`). -/
def maxDT : Nat := 253402300799

/-- `QuizSettings.score_visibility` / `answers_visibility` choices
(`quizzes/models.py`). -/
inductive Visibility where
  | immediate
  | after_close
  | manual
deriving DecidableEq, Repr

/-- `QuizSettings.question_order` choices (`quizzes/models.py`). -/
inductive QOrder where
  | created
  | random
deriving DecidableEq, Repr

/-- `QuizSettings` row (`quizzes/models.py`): timer in minutes (0 = unlimited),
the two visibility modes and the question-order mode. -/
structure QuizSettings where
  timer_minutes : Nat
  score_visibility : Visibility
  answers_visibility : Visibility
  question_order : QOrder
deriving DecidableEq, Repr

/-- `Choice` row (`quizzes/models.py`): primary key and the `is_correct` flag.
Text/image fields are irrelevant to the claims and omitted. -/
structure Choice where
  id : Nat
  is_correct : Bool
deriving DecidableEq, Repr

/-- `Question.selection_type` (`quizzes/models.py`). -/
inductive SelectionType where
  | single
  | multiple
deriving DecidableEq, Repr

/-- `Question` row (`quizzes/models.py`) with its related `choices`. -/
structure Question where
  id : Nat
  selection_type : SelectionType
  points : Nat
  choices : List Choice
deriving DecidableEq, Repr

/-- `QuizCenter` window (`quizzes/models.py`): the open/close boundary for one
center, in seconds. -/
structure QuizCenter where
  open_date : Nat
  close_date : Nat
deriving DecidableEq, Repr

/-- `QuizSubmission` row (`quizzes/models.py`): the per-student attempt state.
`start_time`/`end_time` are nullable datetimes. -/
structure Submission where
  start_time : Option Nat
  end_time : Option Nat
  score : ℚ
  is_submitted : Bool
  is_score_released : Bool
  are_answers_released : Bool
deriving DecidableEq, Repr

/-- `Answer` row (`quizzes/models.py`): stub created at start time, carrying
the question it answers, the selected choices (many-to-many), the derived
`is_correct`/`points_earned` fields and the stored presentation `order`. -/
structure AnswerRow where
  question : Question
  selected : List Choice
  is_correct : Bool
  points_earned : ℚ
  order : Nat
deriving DecidableEq, Repr

/-- A submission together with its answer rows, as manipulated by the views. -/
structure SubState where
  sub : Submission
  answers : List AnswerRow
deriving DecidableEq, Repr

/-- Quiz-level configuration a view reads: settings plus the question tree. -/
structure QuizCfg where
  settings : QuizSettings
  questions : List Question
deriving DecidableEq, Repr

/-- `QuizSubmission.is_timed_out` (`quizzes/models.py` lines 197-225).
A submitted attempt is never timed out; a set `end_time` makes the state
permanently timed out; otherwise a live check against
`start_time + timer_minutes + 60s` runs, with `OverflowError` (deadline past
`maxDT`) caught and treated as not timed out. -/
def is_timed_out (timer_minutes : Nat) (s : Submission) (now : Nat) : Bool :=
  if s.is_submitted then false
  else if s.end_time.isSome then true
  else
    match s.start_time with
    | none => false
    | some st =>
      if timer_minutes = 0 then false
      else
        let deadline := st + timer_minutes * 60 + 60
        if maxDT < deadline then false
        else decide (deadline < now)

/-- Number of choices of the answer's question marked correct
(`correct_choices.count()` in `QuizSubmission.calculate_score`). -/
def totalCorrectChoices (a : AnswerRow) : Nat :=
  (a.question.choices.filter (fun c => c.is_correct)).length

/-- Number of the student's selected choices that are marked correct
(`answer.selected_choices.filter(is_correct=True).count()`). -/
def selectedCorrect (a : AnswerRow) : Nat :=
  (a.selected.filter (fun c => c.is_correct)).length

/-- Total number of selected choices (`answer.selected_choices.count()`). -/
def selectedTotal (a : AnswerRow) : Nat :=
  a.selected.length

/-- The points one answer contributes in `QuizSubmission.calculate_score`
(`quizzes/models.py` lines 243-275): with `C` correct choices, the score is
`(Sc / C) * points`, and when there are incorrect selections the penalty
`((St - Sc) / C) * points` is subtracted and clamped at zero.  A question with
no correct choice contributes nothing. -/
def scoreAnswer (a : AnswerRow) : ℚ :=
  let C := totalCorrectChoices a
  let Sc := selectedCorrect a
  let St := selectedTotal a
  if 0 < C then
    let ps : ℚ := ((Sc : ℚ) / (C : ℚ)) * (a.question.points : ℚ)
    let incorrectly_selected := St - Sc
    if 0 < incorrectly_selected then
      max 0 (ps - ((incorrectly_selected : ℚ) / (C : ℚ)) * (a.question.points : ℚ))
    else ps
  else 0

/-- The per-answer field update performed by `calculate_score`: answers whose
question has at least one correct choice get `points_earned` and `is_correct`
recomputed (`is_correct` iff `Sc = C` and `St = C`); others are untouched. -/
def scoredAnswer (a : AnswerRow) : AnswerRow :=
  if 0 < totalCorrectChoices a then
    { a with
      points_earned := scoreAnswer a
      is_correct :=
        decide (selectedCorrect a = totalCorrectChoices a ∧
          selectedTotal a = totalCorrectChoices a) }
  else a

/-- `QuizSubmission.calculate_score` (`quizzes/models.py` lines 243-275):
updates the derived answer fields and returns the total score, the sum of the
per-answer contributions. -/
def calculate_score (answers : List AnswerRow) : List AnswerRow × ℚ :=
  (answers.map scoredAnswer, (answers.map scoreAnswer).sum)

/-- The awarded-points formula as the spec states it (for a question with at
least one correct choice): `max(0, (Sc/C)·points − ((St−Sc)/C)·points)`,
with the subtraction taken over the rationals. -/
def specAwardedPoints (a : AnswerRow) : ℚ :=
  max 0
    (((selectedCorrect a : ℚ) / (totalCorrectChoices a : ℚ)) *
        (a.question.points : ℚ) -
      (((selectedTotal a : ℚ) - (selectedCorrect a : ℚ)) /
          (totalCorrectChoices a : ℚ)) *
        (a.question.points : ℚ))

/-- One deserialized item of the submit payload
(`AnswerCreateSerializer`): the referenced question and the selected
choices. -/
structure PayloadAnswer where
  question : Question
  selected : List Choice
deriving DecidableEq, Repr

/-- `AnswerCreateSerializer.validate` (`quizzes/serializers.py` lines
679-696): rejects more than one selection on a single-selection question, and
selections whose ids do not belong to the question's choices. -/
def answerItemValid (pa : PayloadAnswer) : Bool :=
  !(pa.question.selection_type == SelectionType.single &&
      decide (1 < pa.selected.length)) &&
    pa.selected.all (fun c => (pa.question.choices.map (fun d => d.id)).contains c.id)

/-- `QuizSubmissionUpdateSerializer.validate_answers`
(`quizzes/serializers.py` lines 701-719): the submitted question ids must be
a subset of the question ids of this submission's own answer stubs. -/
def validate_answers (expected_question_ids : List Nat)
    (value : List PayloadAnswer) : Bool :=
  value.all (fun pa => expected_question_ids.contains pa.question.id)

/-- Question ids of the submission's own answer stubs
(`submission.answers.values_list('question_id')`). -/
def expectedQuestionIds (st : SubState) : List Nat :=
  st.answers.map (fun a => a.question.id)

/-- `QuizSubmissionUpdateSerializer.is_valid`: every payload item passes the
per-answer checks and the question-id subset check. -/
def payloadValid (st : SubState) (payload : List PayloadAnswer) : Bool :=
  payload.all answerItemValid && validate_answers (expectedQuestionIds st) payload

/-- `QuizSubmissionUpdateSerializer.update` (`quizzes/serializers.py` lines
721-745): delete every existing selection of this submission's answers, then
bulk-insert the payload's selections onto the stub of the matching
question. -/
def updateAnswers (answers : List AnswerRow) (payload : List PayloadAnswer) :
    List AnswerRow :=
  answers.map (fun ar =>
    { ar with
      selected :=
        ((payload.filter (fun pa => pa.question.id == ar.question.id)).map
            (fun pa => pa.selected)).flatten })

/-- Outcome of `create_submission` (`quizzes/views.py`): 404 when no
submission row exists, 409 `"You are already submitted"` for double submission
and for timed-out submission, 400 for a validation error, 200 on success. -/
inductive CSResult where
  | notFound
  | conflict
  | invalid
  | ok
deriving DecidableEq, Repr

/-- `create_submission` (`quizzes/views.py` lines 504-576).  A submitted
attempt is rejected with a conflict; a timed-out attempt is finalized at most
once (if `end_time` is unset it becomes `start_time + timer_minutes`, or `now`
when that addition overflows, with `score = 0` and `is_submitted` left false)
and rejected with the same conflict; otherwise a valid payload replaces the
answers, sets `end_time = now`, `is_submitted = true` and the recomputed
score. -/
def create_submission (timer_minutes : Nat) (state : Option SubState)
    (payload : List PayloadAnswer) (now : Nat) : Option SubState × CSResult :=
  match state with
  | none => (none, CSResult.notFound)
  | some st =>
    if st.sub.is_submitted then (some st, CSResult.conflict)
    else if is_timed_out timer_minutes st.sub now then
      match st.sub.end_time with
      | some _ => (some st, CSResult.conflict)
      | none =>
        let et : Nat :=
          match st.sub.start_time with
          | some s0 =>
            if s0 + timer_minutes * 60 ≤ maxDT then s0 + timer_minutes * 60
            else now
          | none => now
        (some { st with sub := { st.sub with end_time := some et, score := 0 } },
          CSResult.conflict)
    else if payloadValid st payload then
      let answers1 := updateAnswers st.answers payload
      let scored := calculate_score answers1
      (some
        { sub :=
            { st.sub with
              end_time := some now
              is_submitted := true
              score := scored.2 }
          answers := scored.1 },
        CSResult.ok)
    else (some st, CSResult.invalid)

/-- The `Answer` stubs created by `start_quiz` (`quizzes/views.py` lines
487-492): one placeholder per question with `order` taken from the enumeration
index. -/
def makeStubs : Nat → List Question → List AnswerRow
  | _, [] => []
  | i, q :: qs =>
    { question := q, selected := [], is_correct := false, points_earned := 0,
      order := i } :: makeStubs (i + 1) qs

/-- The question list in the order presented to the student
(`quizzes/views.py` lines 481-485): the creation order, shuffled when
`question_order` is `random`.  The nondeterministic `random.shuffle` is
modelled by an arbitrary reordering function. -/
def presentedQuestions (cfg : QuizCfg)
    (shuffle : List Question → List Question) : List Question :=
  if cfg.settings.question_order = QOrder.random then shuffle cfg.questions
  else cfg.questions

/-- `start_quiz` (`quizzes/views.py` lines 452-501), after the permission and
settings checks: `get_or_create` either finds the existing submission and
changes nothing, or creates one, materializes the ordered answer stubs and
only then sets `start_time = now`.  Returns the new state and the reported
`start_time`. -/
def start_quiz (cfg : QuizCfg) (shuffle : List Question → List Question)
    (now : Nat) (state : Option SubState) : Option SubState × Option Nat :=
  match state with
  | some st => (some st, st.sub.start_time)
  | none =>
    let answers := makeStubs 0 (presentedQuestions cfg shuffle)
    (some
      { sub :=
          { start_time := some now
            end_time := none
            score := 0
            is_submitted := false
            is_score_released := false
            are_answers_released := false }
        answers := answers },
      some now)

/-- The release request body of `release_all_quiz_results`
(`quizzes/views.py`): whether each key is present in the payload
(`'release_score' in request.data`) and its boolean value. -/
structure ReleaseReq where
  score_requested : Bool
  score_value : Bool
  answers_requested : Bool
  answers_value : Bool
deriving DecidableEq, Repr

/-- HTTP outcome of `release_all_quiz_results`: 400 when neither key is
present, 409 when no field is in manual mode, 200 otherwise. -/
inductive RelStatus where
  | badRequest
  | conflict
  | ok
deriving DecidableEq, Repr

/-- Response body of `release_all_quiz_results`: the status plus the
`released_scores` / `released_answers` echo (absent — `None` — for a field
that was not updated). -/
structure RelResp where
  status : RelStatus
  released_scores : Option Bool
  released_answers : Option Bool
deriving DecidableEq, Repr

/-- The per-row effect of `submissions.update(**update_payload)` restricted to
`is_submitted=True` rows: each flag is overwritten only when present in the
update payload. -/
def releaseUpd (score_upd answers_upd : Option Bool) (s : Submission) :
    Submission :=
  if s.is_submitted then
    { s with
      is_score_released := score_upd.getD s.is_score_released
      are_answers_released := answers_upd.getD s.are_answers_released }
  else s

/-- `release_all_quiz_results` (`quizzes/views.py` lines 698-755): rejects a
payload naming neither field; builds the update payload only from requested
fields whose visibility mode is `manual`; rejects with a conflict when that
payload is empty; otherwise updates every `is_submitted=True` submission of
the quiz and echoes what was done. -/
def release_all_quiz_results (settings : QuizSettings) (req : ReleaseReq)
    (subs : List Submission) : List Submission × RelResp :=
  if req.score_requested = false ∧ req.answers_requested = false then
    (subs, ⟨RelStatus.badRequest, none, none⟩)
  else
    let score_upd : Option Bool :=
      if req.score_requested = true ∧
          settings.score_visibility = Visibility.manual then
        some req.score_value
      else none
    let answers_upd : Option Bool :=
      if req.answers_requested = true ∧
          settings.answers_visibility = Visibility.manual then
        some req.answers_value
      else none
    if score_upd = none ∧ answers_upd = none then
      (subs, ⟨RelStatus.conflict, none, none⟩)
    else
      (subs.map (releaseUpd score_upd answers_upd),
        ⟨RelStatus.ok, score_upd, answers_upd⟩)

/-- The effective release time `close_date + timer_minutes` (saturation point
of the visibility logic): `none` models the `OverflowError` raised when the
sum exceeds the representable range.  Shared logic of
`SubmissionVisibilityMixin.to_representation` and
`StudentSubmissionStatusSerializer._is_quiz_closed`
(`quizzes/serializers.py`). -/
def effectiveClose (timer_minutes : Nat) (qc : QuizCenter) : Option Nat :=
  if 0 < timer_minutes then
    if qc.close_date + timer_minutes * 60 ≤ maxDT then
      some (qc.close_date + timer_minutes * 60)
    else none
  else some qc.close_date

/-- The mode dispatch of the mixin's visibility resolution: nothing is
visible before the submission is finished; then `immediate` is always
visible, `after_close` follows the closed flag and `manual` follows the
stored release flag. -/
def resolveVis (mode : Visibility) (finished closed flag : Bool) : Bool :=
  if finished then
    match mode with
    | Visibility.immediate => true
    | Visibility.after_close => closed
    | Visibility.manual => flag
  else false

/-- The data produced by `SubmissionVisibilityMixin.to_representation` on its
normal path: the two effective release flags, and whether the score/answers
fields were removed from the payload (students only). -/
structure VisOut where
  is_score_released : Bool
  are_answers_released : Bool
  score_hidden : Bool
  answers_hidden : Bool
deriving DecidableEq, Repr

/-- The normal tail of `SubmissionVisibilityMixin.to_representation`
(`quizzes/serializers.py` lines 797-833), once `is_quiz_closed` has been
computed. -/
def mkVisOut (settings : QuizSettings) (sub : Submission)
    (finished closed isStudent : Bool) : VisOut :=
  let sv := resolveVis settings.score_visibility finished closed
    sub.is_score_released
  let av := resolveVis settings.answers_visibility finished closed
    sub.are_answers_released
  { is_score_released := sv
    are_answers_released := av
    score_hidden := isStudent && !sv
    answers_hidden := isStudent && !av }

/-- Result of `SubmissionVisibilityMixin.to_representation`: either the
normal serialized data, or — via the early `return False` in the
`OverflowError` handler — a bare boolean. -/
inductive ReprOut where
  | normal (out : VisOut)
  | boolVal (b : Bool)
deriving DecidableEq, Repr

/-- `SubmissionVisibilityMixin.to_representation` (`quizzes/serializers.py`
lines 767-833), used by the student submission list and the student/teacher
submission detail: looks up the student's center window, computes the
effective release time (the `OverflowError` handler executes `return False`,
ending the method with a bare boolean), resolves the two visibilities gated
on the submission being finished, and hides the fields from students. -/
def mixin_visibility (settings : QuizSettings) (qcOpt : Option QuizCenter)
    (sub : Submission) (now : Nat) (isStudent : Bool) : ReprOut :=
  let finished := sub.is_submitted || is_timed_out settings.timer_minutes sub now
  match qcOpt with
  | some qc =>
    match effectiveClose settings.timer_minutes qc with
    | none => ReprOut.boolVal false
    | some eff =>
      ReprOut.normal (mkVisOut settings sub finished (decide (eff < now)) isStudent)
  | none => ReprOut.normal (mkVisOut settings sub finished false isStudent)

/-- `StudentSubmissionStatusSerializer._is_quiz_closed`
(`quizzes/serializers.py` lines 396-420): false when the center map is empty
or the student's center has no window; otherwise compares `now` against the
effective release time, treating `OverflowError` as not closed. -/
def roster_is_quiz_closed (settings : QuizSettings)
    (quiz_center_map : List (Nat × QuizCenter)) (center_id : Nat)
    (now : Nat) : Bool :=
  if quiz_center_map.isEmpty then false
  else
    match (quiz_center_map.find? (fun p => p.1 == center_id)).map Prod.snd with
    | none => false
    | some qc =>
      match effectiveClose settings.timer_minutes qc with
      | none => false
      | some eff => decide (eff < now)

/-- `StudentSubmissionStatusSerializer.get_is_score_released`
(`quizzes/serializers.py` lines 499-513): dispatches on the score visibility
mode only — `immediate` is always true, with no check that the submission is
finished (or even exists). -/
def roster_get_is_score_released (settings : QuizSettings)
    (subOpt : Option Submission) (closed : Bool) : Bool :=
  match settings.score_visibility with
  | Visibility.immediate => true
  | Visibility.after_close => closed
  | Visibility.manual =>
    match subOpt with
    | some s => s.is_score_released
    | none => false

/-- `StudentSubmissionStatusSerializer.get_are_answers_released`
(`quizzes/serializers.py` lines 515-529), same shape for the answers flag. -/
def roster_get_are_answers_released (settings : QuizSettings)
    (subOpt : Option Submission) (closed : Bool) : Bool :=
  match settings.answers_visibility with
  | Visibility.immediate => true
  | Visibility.after_close => closed
  | Visibility.manual =>
    match subOpt with
    | some s => s.are_answers_released
    | none => false

/-- The submission-lifecycle operations of the views: start, student submit
(which also performs the answer update and the lazy timeout finalization),
a bare answer update, and the bulk release toggle. -/
inductive QuizOp where
  | startOp (now : Nat)
  | submitOp (payload : List PayloadAnswer) (now : Nat)
  | updateOp (payload : List PayloadAnswer)
  | releaseOp (req : ReleaseReq)

/-- One operation applied to one student's submission state.  The release
operation acts on this submission through the same per-row update
`release_all_quiz_results` applies to the whole quiz. -/
def stepOp (cfg : QuizCfg) (shuffle : List Question → List Question)
    (state : Option SubState) : QuizOp → Option SubState
  | QuizOp.startOp now => (start_quiz cfg shuffle now state).1
  | QuizOp.submitOp payload now =>
    (create_submission cfg.settings.timer_minutes state payload now).1
  | QuizOp.updateOp payload =>
    state.map (fun st => { st with answers := updateAnswers st.answers payload })
  | QuizOp.releaseOp req =>
    match state with
    | none => none
    | some st =>
      some { st with
        sub := (release_all_quiz_results cfg.settings req [st.sub]).1.headD st.sub }

/-- A sequence of operations applied in order. -/
def runOps (cfg : QuizCfg) (shuffle : List Question → List Question)
    (state : Option SubState) (ops : List QuizOp) : Option SubState :=
  ops.foldl (stepOp cfg shuffle) state

end Quizzes

namespace Quizzes

/-- The stubs carry exactly the presented questions, in order. -/
theorem makeStubs_map_question (i : Nat) (qs : List Question) :
    (makeStubs i qs).map (fun a => a.question) = qs := by
  induction qs generalizing i with
  | nil => rfl
  | cons q qs ih => simp [makeStubs, ih]

/-- The stubs carry consecutive `order` values starting at the accumulator. -/
theorem makeStubs_map_order (i : Nat) (qs : List Question) :
    (makeStubs i qs).map (fun a => a.order) = List.range' i qs.length := by
  induction qs generalizing i with
  | nil => rfl
  | cons q qs ih => simp [makeStubs, List.range', ih]

/-- In every answer, the selected-correct count is at most the selected
count. -/
theorem selectedCorrect_le_selectedTotal (a : AnswerRow) :
    selectedCorrect a ≤ selectedTotal a :=
  List.length_filter_le _ _

/-- The per-answer score is nonnegative. -/
theorem scoreAnswer_nonneg (a : AnswerRow) : 0 ≤ scoreAnswer a := by
  unfold scoreAnswer
  by_cases hC : 0 < totalCorrectChoices a
  · simp only [hC, if_true]
    by_cases hinc : 0 < selectedTotal a - selectedCorrect a
    · simp [hinc, le_max_iff]
    · simp only [hinc, if_false]
      positivity
  · simp [hC]

/-- C3: for an answer whose question has at least one correct choice the code
awards exactly `max(0, (Sc/C)·points − ((St−Sc)/C)·points)`; a question with
no correct choices contributes 0; and the submission score is the sum of the
per-answer contributions. -/
theorem C3_partial_credit_scoring (answers : List AnswerRow) (a : AnswerRow)
    (hC : 1 ≤ totalCorrectChoices a) :
    scoreAnswer a = specAwardedPoints a ∧
    (∀ b : AnswerRow, totalCorrectChoices b = 0 → scoreAnswer b = 0) ∧
    (calculate_score answers).2 = (answers.map scoreAnswer).sum := by
  refine ⟨?_, ?_, rfl⟩
  · have hle : selectedCorrect a ≤ selectedTotal a :=
      selectedCorrect_le_selectedTotal a
    have hCpos : (0 : ℚ) < (totalCorrectChoices a : ℚ) := by
      exact_mod_cast Nat.lt_of_lt_of_le Nat.zero_lt_one hC
    unfold scoreAnswer specAwardedPoints
    simp only [Nat.lt_of_lt_of_le Nat.zero_lt_one hC, if_true]
    by_cases hinc : 0 < selectedTotal a - selectedCorrect a
    · have hcast : ((selectedTotal a - selectedCorrect a : ℕ) : ℚ) =
          (selectedTotal a : ℚ) - (selectedCorrect a : ℚ) :=
        Nat.cast_sub hle
      simp only [hinc, if_true, hcast]
    · have heq : selectedTotal a = selectedCorrect a := by omega
      have hnn : (0 : ℚ) ≤
          ((selectedCorrect a : ℚ) / (totalCorrectChoices a : ℚ)) *
            (a.question.points : ℚ) := by positivity
      rw [if_neg hinc, heq, sub_self, zero_div, zero_mul, sub_zero]
      exact (max_eq_right hnn).symm
  · intro b hb
    unfold scoreAnswer
    simp [hb]

/-- Witness for `C3_partial_credit_scoring`: a single-correct-choice question
worth 10 points with the correct choice plus one wrong one selected awards
`max(0, 10 − 10) = 0`. -/
theorem C3_witness :
    scoreAnswer
        ⟨⟨1, SelectionType.multiple, 10, [⟨1, true⟩, ⟨2, false⟩, ⟨3, false⟩]⟩,
          [⟨1, true⟩, ⟨2, false⟩], false, 0, 0⟩ =
      specAwardedPoints
        ⟨⟨1, SelectionType.multiple, 10, [⟨1, true⟩, ⟨2, false⟩, ⟨3, false⟩]⟩,
          [⟨1, true⟩, ⟨2, false⟩], false, 0, 0⟩ ∧
    (∀ b : AnswerRow, totalCorrectChoices b = 0 → scoreAnswer b = 0) ∧
    (calculate_score
        [⟨⟨1, SelectionType.multiple, 10, [⟨1, true⟩, ⟨2, false⟩, ⟨3, false⟩]⟩,
          [⟨1, true⟩, ⟨2, false⟩], false, 0, 0⟩]).2 =
      ([⟨⟨1, SelectionType.multiple, 10, [⟨1, true⟩, ⟨2, false⟩, ⟨3, false⟩]⟩,
          [⟨1, true⟩, ⟨2, false⟩], false, 0, 0⟩].map scoreAnswer).sum :=
  C3_partial_credit_scoring _ _ (by decide)

/-- A finalized (`end_time` set) but not formally submitted attempt is
permanently timed out. -/
theorem is_timed_out_of_end_time (timer_minutes now : Nat) (s : Submission)
    (h1 : s.is_submitted = false) (h2 : s.end_time.isSome = true) :
    is_timed_out timer_minutes s now = true := by
  unfold is_timed_out
  simp [h1, h2]

/-- A live (no `end_time`) timed-out attempt has a start time. -/
theorem start_time_isSome_of_timed_out (timer_minutes now : Nat)
    (s : Submission) (h : is_timed_out timer_minutes s now = true)
    (he : s.end_time = none) : ∃ s0, s.start_time = some s0 := by
  unfold is_timed_out at h
  rw [he] at h
  by_cases hsub : s.is_submitted
  · simp [hsub] at h
  · simp only [hsub, if_false, Option.isSome_none, Bool.false_eq_true] at h
    cases hst : s.start_time with
    | none => rw [hst] at h; simp at h
    | some s0 => exact ⟨s0, rfl⟩

/-- C8: `validate_answers` accepts a payload exactly when its question ids all
belong to the submission's own answer stubs (any subset is allowed), and
rejects it exactly when some submitted question id lies outside that set. -/
theorem C8_validate_answers_subset (st : SubState)
    (value : List PayloadAnswer) :
    (validate_answers (expectedQuestionIds st) value = true ↔
      ∀ pa ∈ value, pa.question.id ∈ expectedQuestionIds st) ∧
    (validate_answers (expectedQuestionIds st) value = false ↔
      ∃ pa ∈ value, pa.question.id ∉ expectedQuestionIds st) := by
  constructor
  · simp [validate_answers, List.all_eq_true]
  · rw [← Bool.not_eq_true, validate_answers, List.all_eq_true]
    push_neg
    simp

/-- C2: a timed-out, not-submitted attempt is finalized exactly once by the
first submit attempt — if `end_time` is unset it becomes
`start_time + timer_minutes` (or `now` when that addition overflows) with
`score = 0` and `is_submitted` still false — the request is rejected with the
double-submission conflict, and a second submit attempt changes no field. -/
theorem C2_timeout_finalized_once (timer_minutes now now' : Nat)
    (st : SubState) (payload payload' : List PayloadAnswer)
    (hto : is_timed_out timer_minutes st.sub now = true) :
    (create_submission timer_minutes (some st) payload now).2 =
      CSResult.conflict ∧
    ∀ s1, (create_submission timer_minutes (some st) payload now).1 = some s1 →
      s1.sub.is_submitted = false ∧
      (st.sub.end_time = none →
        s1.sub.score = 0 ∧
        ∃ s0, st.sub.start_time = some s0 ∧
          s1.sub.end_time =
            some (if s0 + timer_minutes * 60 ≤ maxDT
              then s0 + timer_minutes * 60 else now)) ∧
      (∀ t, st.sub.end_time = some t → s1 = st) ∧
      create_submission timer_minutes (some s1) payload' now' =
        (some s1, CSResult.conflict) := by
  have hsub : st.sub.is_submitted = false := by
    by_contra h
    rw [Bool.not_eq_false] at h
    unfold is_timed_out at hto
    simp [h] at hto
  cases het : st.sub.end_time with
  | some t =>
    have hres : create_submission timer_minutes (some st) payload now =
        (some st, CSResult.conflict) := by
      simp [create_submission, hsub, hto, het]
    refine ⟨by rw [hres], ?_⟩
    intro s1 h1
    rw [hres] at h1
    injection h1 with h1
    subst h1
    refine ⟨hsub, by simp [het], fun _ _ => rfl, ?_⟩
    have hto' : is_timed_out timer_minutes st.sub now' = true :=
      is_timed_out_of_end_time _ _ _ hsub (by rw [het]; rfl)
    simp [create_submission, hsub, hto', het]
  | none =>
    obtain ⟨s0, hs0⟩ := start_time_isSome_of_timed_out _ _ _ hto het
    have hres : create_submission timer_minutes (some st) payload now =
        (some
          { st with sub :=
              { st.sub with
                end_time := some (if s0 + timer_minutes * 60 ≤ maxDT
                  then s0 + timer_minutes * 60 else now)
                score := 0 } },
          CSResult.conflict) := by
      simp [create_submission, hsub, hto, het, hs0]
    refine ⟨by rw [hres], ?_⟩
    intro s1 h1
    rw [hres] at h1
    injection h1 with h1
    subst h1
    refine ⟨hsub, fun _ => ⟨rfl, ⟨s0, hs0, rfl⟩⟩,
      fun t ht => Option.noConfusion ht, ?_⟩
    have hto' : is_timed_out timer_minutes
        { st.sub with
          end_time := some (if s0 + timer_minutes * 60 ≤ maxDT
            then s0 + timer_minutes * 60 else now)
          score := 0 } now' = true :=
      is_timed_out_of_end_time _ _ _ hsub rfl
    simp only [hsub] at hto'
    simp [create_submission, hsub, hto']

/-- Witness for `C2_timeout_finalized_once` at a concrete timed-out
submission. -/
theorem C2_witness :
    (create_submission 1 (some ⟨⟨some 0, none, 0, false, false, false⟩, []⟩)
        [] 1000).2 = CSResult.conflict :=
  (C2_timeout_finalized_once 1 1000 2000
    ⟨⟨some 0, none, 0, false, false, false⟩, []⟩ [] [] (by decide)).1

/-- C1: the timed-out predicate holds exactly when the submission is not
`is_submitted` and (`end_time` is set, or `start_time` is set, the timer is
positive and `now` is past `start_time + timer_minutes + 60s` of grace); and
with a zero-minute timer and no `end_time` it is false at every time. -/
theorem C1_is_timed_out_characterization
    (timer_minutes now : Nat) (s : Submission) (hnow : now ≤ maxDT) :
    (is_timed_out timer_minutes s now = true ↔
      s.is_submitted = false ∧
        (s.end_time.isSome = true ∨
          ∃ st, s.start_time = some st ∧ 0 < timer_minutes ∧
            st + timer_minutes * 60 + 60 < now)) ∧
    (timer_minutes = 0 → s.end_time = none →
      is_timed_out timer_minutes s now = false) := by
  constructor
  · unfold is_timed_out
    by_cases hsub : s.is_submitted
    · simp [hsub]
    · simp only [hsub, if_false, Bool.false_eq_true, false_and]
      cases het : s.end_time with
      | some t => simp [hsub]
      | none =>
        simp only [Option.isSome_none, Bool.false_eq_true, false_or]
        cases hst : s.start_time with
        | none => simp [hsub]
        | some st =>
          by_cases htm : timer_minutes = 0
          · simp [htm]
          · by_cases hover : maxDT < st + timer_minutes * 60 + 60
            · have hnolt : ¬ st + timer_minutes * 60 + 60 < now := by omega
              simp only [htm, if_false, hover, if_true, Bool.false_eq_true,
                false_iff]
              intro hcon
              obtain ⟨st', hst', _, hlt⟩ := hcon.2
              injection hst' with he
              omega
            · simp only [htm, if_false, hover, if_false, decide_eq_true_eq]
              constructor
              · intro hlt
                exact ⟨by simp, ⟨st, rfl, by omega, hlt⟩⟩
              · rintro ⟨_, st', hst', _, hlt⟩
                injection hst' with he
                omega
  · intro htm het
    unfold is_timed_out
    rw [het]
    cases s.start_time <;> simp [htm]

/-- Witness for `C1_is_timed_out_characterization` at a concrete
in-progress submission and time. -/
theorem C1_witness :
    (is_timed_out 2 ⟨some 100, none, 0, false, false, false⟩ 500 = true ↔
      (false : Bool) = false ∧
        ((none : Option Nat).isSome = true ∨
          ∃ st, (some 100 : Option Nat) = some st ∧ 0 < 2 ∧
            st + 2 * 60 + 60 < 500)) ∧
    (2 = 0 → (none : Option Nat) = none →
      is_timed_out 2 ⟨some 100, none, 0, false, false, false⟩ 500 = false) :=
  C1_is_timed_out_characterization 2 500
    ⟨some 100, none, 0, false, false, false⟩ (by decide)

/-- C9: starting is idempotent — a second start call against an existing
submission returns the stored `start_time` and changes nothing — while the
first start materializes one answer stub per question in presentation order
(orders `0, 1, …`) and then sets `start_time = now`. -/
theorem C9_start_idempotent (cfg : QuizCfg)
    (shuffle : List Question → List Question) (now : Nat) (st : SubState)
    (hperm : (presentedQuestions cfg shuffle).Perm cfg.questions) :
    start_quiz cfg shuffle now (some st) = (some st, st.sub.start_time) ∧
    ∀ s1, (start_quiz cfg shuffle now none).1 = some s1 →
      s1.sub.start_time = some now ∧
      s1.answers.map (fun a => a.question) = presentedQuestions cfg shuffle ∧
      (s1.answers.map (fun a => a.question)).Perm cfg.questions ∧
      s1.answers.map (fun a => a.order) =
        List.range (presentedQuestions cfg shuffle).length := by
  refine ⟨rfl, ?_⟩
  intro s1 h1
  injection h1 with h1
  subst h1
  refine ⟨rfl, makeStubs_map_question 0 _, ?_, ?_⟩
  · rw [makeStubs_map_question 0 _]
    exact hperm
  · rw [makeStubs_map_order 0 _, List.range_eq_range']

/-- Witness for `C9_start_idempotent`: a second start against an existing
one-question submission returns the stored start time unchanged. -/
theorem C9_witness :
    start_quiz
        ⟨⟨0, Visibility.after_close, Visibility.after_close, QOrder.created⟩,
          [⟨1, SelectionType.single, 10, [⟨1, true⟩]⟩]⟩
        id 55
        (some ⟨⟨some 7, none, 0, false, false, false⟩,
          [⟨⟨1, SelectionType.single, 10, [⟨1, true⟩]⟩, [], false, 0, 0⟩]⟩) =
      (some ⟨⟨some 7, none, 0, false, false, false⟩,
          [⟨⟨1, SelectionType.single, 10, [⟨1, true⟩]⟩, [], false, 0, 0⟩]⟩,
        some 7) :=
  (C9_start_idempotent
    ⟨⟨0, Visibility.after_close, Visibility.after_close, QOrder.created⟩,
      [⟨1, SelectionType.single, 10, [⟨1, true⟩]⟩]⟩
    id 55
    ⟨⟨some 7, none, 0, false, false, false⟩,
      [⟨⟨1, SelectionType.single, 10, [⟨1, true⟩]⟩, [], false, 0, 0⟩]⟩
    (by decide)).1

/-- The per-row release update never touches `end_time`. -/
theorem releaseUpd_end_time (a b : Option Bool) (s : Submission) :
    (releaseUpd a b s).end_time = s.end_time := by
  unfold releaseUpd
  split <;> rfl

/-- With no score entry in the update payload, the score flag is untouched. -/
theorem releaseUpd_score_none (b : Option Bool) (s : Submission) :
    (releaseUpd none b s).is_score_released = s.is_score_released := by
  unfold releaseUpd
  split <;> rfl

/-- With no answers entry in the update payload, the answers flag is
untouched. -/
theorem releaseUpd_answers_none (a : Option Bool) (s : Submission) :
    (releaseUpd a none s).are_answers_released = s.are_answers_released := by
  unfold releaseUpd
  split <;> rfl

/-- A submission that is not `is_submitted` is untouched by the release
update. -/
theorem releaseUpd_not_submitted (a b : Option Bool) (s : Submission)
    (h : s.is_submitted = false) : releaseUpd a b s = s := by
  simp [releaseUpd, h]

/-- Mapping the release update with no score entry preserves every stored
score flag. -/
theorem map_releaseUpd_score_none (b : Option Bool)
    (subs : List Submission) :
    (subs.map (releaseUpd none b)).map (fun s => s.is_score_released) =
      subs.map (fun s => s.is_score_released) := by
  induction subs with
  | nil => rfl
  | cons s ss ih => simp [releaseUpd_score_none, ih]

/-- Mapping the release update with no answers entry preserves every stored
answers flag. -/
theorem map_releaseUpd_answers_none (a : Option Bool)
    (subs : List Submission) :
    (subs.map (releaseUpd a none)).map (fun s => s.are_answers_released) =
      subs.map (fun s => s.are_answers_released) := by
  induction subs with
  | nil => rfl
  | cons s ss ih => simp [releaseUpd_answers_none, ih]

/-- C7: the bulk release toggles a flag only for a field whose mode is
exactly `manual` — a requested field under another mode leaves every stored
flag unchanged and is echoed back as absent — and when no requested field is
in manual mode the request is rejected as a conflict with no submission
modified. -/
theorem C7_release_manual_only (settings : QuizSettings) (req : ReleaseReq)
    (subs : List Submission)
    (hreq : req.score_requested = true ∨ req.answers_requested = true) :
    ((req.score_requested = true ∧
        settings.score_visibility ≠ Visibility.manual) →
      (release_all_quiz_results settings req subs).1.map
          (fun s => s.is_score_released) =
        subs.map (fun s => s.is_score_released) ∧
      (release_all_quiz_results settings req subs).2.released_scores = none) ∧
    ((req.answers_requested = true ∧
        settings.answers_visibility ≠ Visibility.manual) →
      (release_all_quiz_results settings req subs).1.map
          (fun s => s.are_answers_released) =
        subs.map (fun s => s.are_answers_released) ∧
      (release_all_quiz_results settings req subs).2.released_answers =
        none) ∧
    ((¬(req.score_requested = true ∧
          settings.score_visibility = Visibility.manual) ∧
      ¬(req.answers_requested = true ∧
          settings.answers_visibility = Visibility.manual)) →
      (release_all_quiz_results settings req subs).1 = subs ∧
      (release_all_quiz_results settings req subs).2.status =
        RelStatus.conflict) := by
  have h400 : ¬(req.score_requested = false ∧ req.answers_requested = false) := by
    rcases hreq with h | h <;> simp [h]
  refine ⟨?_, ?_, ?_⟩
  · rintro ⟨hsr, hsv⟩
    have hsup : (if req.score_requested = true ∧
        settings.score_visibility = Visibility.manual then
          some req.score_value else none) = none := by
      rw [if_neg]
      rintro ⟨-, hc⟩
      exact hsv hc
    by_cases hans : req.answers_requested = true ∧
        settings.answers_visibility = Visibility.manual
    · simp only [release_all_quiz_results, if_neg h400, hsup, if_pos hans]
      rw [if_neg (by simp)]
      exact ⟨map_releaseUpd_score_none _ subs, rfl⟩
    · simp only [release_all_quiz_results, if_neg h400, hsup, if_neg hans]
      rw [if_pos (by simp)]
      exact ⟨rfl, rfl⟩
  · rintro ⟨har, hav⟩
    have haup : (if req.answers_requested = true ∧
        settings.answers_visibility = Visibility.manual then
          some req.answers_value else none) = none := by
      rw [if_neg]
      rintro ⟨-, hc⟩
      exact hav hc
    by_cases hsc : req.score_requested = true ∧
        settings.score_visibility = Visibility.manual
    · simp only [release_all_quiz_results, if_neg h400, haup, if_pos hsc]
      rw [if_neg (by simp)]
      exact ⟨map_releaseUpd_answers_none _ subs, rfl⟩
    · simp only [release_all_quiz_results, if_neg h400, haup, if_neg hsc]
      rw [if_pos (by simp)]
      exact ⟨rfl, rfl⟩
  · rintro ⟨h1, h2⟩
    have hsup : (if req.score_requested = true ∧
        settings.score_visibility = Visibility.manual then
          some req.score_value else none) = none := if_neg h1
    have haup : (if req.answers_requested = true ∧
        settings.answers_visibility = Visibility.manual then
          some req.answers_value else none) = none := if_neg h2
    simp only [release_all_quiz_results, if_neg h400, hsup, haup]
    rw [if_pos (by simp)]
    exact ⟨rfl, rfl⟩

/-- Witness for `C7_release_manual_only`: releasing scores under `immediate`
mode leaves the stored flag of a submitted attempt unchanged and reports the
score field as not updated. -/
theorem C7_witness :
    (release_all_quiz_results
          ⟨0, Visibility.immediate, Visibility.manual, QOrder.created⟩
          ⟨true, true, false, false⟩
          [⟨some 0, some 9, 0, true, false, false⟩]).1.map
        (fun s => s.is_score_released) =
      [(⟨some 0, some 9, 0, true, false, false⟩ : Submission)].map
        (fun s => s.is_score_released) ∧
    (release_all_quiz_results
        ⟨0, Visibility.immediate, Visibility.manual, QOrder.created⟩
        ⟨true, true, false, false⟩
        [⟨some 0, some 9, 0, true, false, false⟩]).2.released_scores =
      none :=
  (C7_release_manual_only
    ⟨0, Visibility.immediate, Visibility.manual, QOrder.created⟩
    ⟨true, true, false, false⟩
    [⟨some 0, some 9, 0, true, false, false⟩]
    (Or.inl rfl)).1 ⟨rfl, by decide⟩

/-- C10: the bulk release updates only `is_submitted = true` rows — a
submission finished by timeout or still in progress keeps both release
flags (indeed all fields) unchanged, at its position. -/
theorem C10_release_only_submitted (settings : QuizSettings)
    (req : ReleaseReq) (subs : List Submission) (i : Nat) (s : Submission)
    (hs : subs[i]? = some s) (hns : s.is_submitted = false) :
    (release_all_quiz_results settings req subs).1[i]? = some s := by
  simp only [release_all_quiz_results]
  repeat' split
  all_goals
    first
      | exact hs
      | (rw [List.getElem?_map, hs, Option.map_some']
         rw [releaseUpd_not_submitted _ _ _ hns])

/-- Witness for `C10_release_only_submitted`: a timed-out (finalized,
never-submitted) attempt is untouched by a release-scores call under manual
mode. -/
theorem C10_witness :
    (release_all_quiz_results
        ⟨0, Visibility.manual, Visibility.manual, QOrder.created⟩
        ⟨true, true, false, false⟩
        [⟨some 0, some 9, 0, false, false, false⟩]).1[0]? =
      some ⟨some 0, some 9, 0, false, false, false⟩ :=
  C10_release_only_submitted
    ⟨0, Visibility.manual, Visibility.manual, QOrder.created⟩
    ⟨true, true, false, false⟩
    [⟨some 0, some 9, 0, false, false, false⟩] 0
    ⟨some 0, some 9, 0, false, false, false⟩ rfl rfl

/-- C4 counterexample: on the teacher-roster read path, an in-progress
submission (started, not submitted, not timed out) of a quiz with score
visibility `immediate` has its resolved score visibility reported `true`,
although the submission is not finished. -/
theorem C4_counterexample :
    (⟨some 10, none, 0, false, false, false⟩ : Submission).is_submitted =
      false ∧
    is_timed_out 0 ⟨some 10, none, 0, false, false, false⟩ 50 = false ∧
    roster_get_is_score_released
        ⟨0, Visibility.immediate, Visibility.immediate, QOrder.created⟩
        (some ⟨some 10, none, 0, false, false, false⟩)
        (roster_is_quiz_closed
          ⟨0, Visibility.immediate, Visibility.immediate, QOrder.created⟩
          [(1, ⟨0, 100⟩)] 1 50) = true := by
  decide

/-- C4 (amended): on the student-list and detail read paths
(`SubmissionVisibilityMixin`), an unfinished submission resolves both
visibilities to false under every mode, and the fields are hidden from
students; the teacher-roster flags however carry no finished gate — under
`immediate` the roster reports the score released for any submission
state. -/
theorem C4_unfinished_never_visible (settings : QuizSettings)
    (qcOpt : Option QuizCenter) (sub : Submission) (now : Nat) (stu : Bool)
    (h1 : sub.is_submitted = false)
    (h2 : is_timed_out settings.timer_minutes sub now = false) :
    (∀ out, mixin_visibility settings qcOpt sub now stu = ReprOut.normal out →
      out.is_score_released = false ∧ out.are_answers_released = false ∧
      (stu = true → out.score_hidden = true ∧ out.answers_hidden = true)) ∧
    (settings.score_visibility = Visibility.immediate →
      ∀ subOpt closed,
        roster_get_is_score_released settings subOpt closed = true) := by
  have hfin : (sub.is_submitted ||
      is_timed_out settings.timer_minutes sub now) = false := by
    rw [h1, h2]
    rfl
  constructor
  · intro out hout
    have hgoal : ∀ closed : Bool,
        mkVisOut settings sub false closed stu = out →
          out.is_score_released = false ∧ out.are_answers_released = false ∧
          (stu = true → out.score_hidden = true ∧
            out.answers_hidden = true) := by
      intro closed hmk
      subst hmk
      refine ⟨by simp [mkVisOut, resolveVis], by simp [mkVisOut, resolveVis], ?_⟩
      intro hstu
      subst hstu
      simp [mkVisOut, resolveVis]
    cases qcOpt with
    | none =>
      simp only [mixin_visibility, hfin] at hout
      injection hout with hout
      exact hgoal false hout
    | some qc =>
      cases heff : effectiveClose settings.timer_minutes qc with
      | none =>
        simp only [mixin_visibility, heff] at hout
        exact ReprOut.noConfusion hout
      | some eff =>
        simp only [mixin_visibility, heff, hfin] at hout
        injection hout with hout
        exact hgoal _ hout
  · intro hv subOpt closed
    simp [roster_get_is_score_released, hv]

/-- Witness for `C4_unfinished_never_visible` at an in-progress submission
under immediate visibility. -/
theorem C4_witness :
    roster_get_is_score_released
        ⟨0, Visibility.immediate, Visibility.immediate, QOrder.created⟩
        none false = true :=
  (C4_unfinished_never_visible
    ⟨0, Visibility.immediate, Visibility.immediate, QOrder.created⟩
    none ⟨some 1, none, 0, false, false, false⟩ 5 true
    (by decide) (by decide)).2 rfl none false

/-- C5: at a close time whose effective release computation overflows, the
mixin read path does not return its normal serialized result — the
`OverflowError` handler's `return False` ends `to_representation` with a bare
boolean — while the roster helper does treat the quiz as not yet closed. -/
theorem C5_overflow_mixin_bare_boolean :
    mixin_visibility
        ⟨1, Visibility.after_close, Visibility.after_close, QOrder.created⟩
        (some ⟨0, maxDT⟩) ⟨some 0, some 10, 0, true, false, false⟩ 50 true =
      ReprOut.boolVal false ∧
    (∀ out, mixin_visibility
        ⟨1, Visibility.after_close, Visibility.after_close, QOrder.created⟩
        (some ⟨0, maxDT⟩) ⟨some 0, some 10, 0, true, false, false⟩ 50 true ≠
      ReprOut.normal out) ∧
    roster_is_quiz_closed
        ⟨1, Visibility.after_close, Visibility.after_close, QOrder.created⟩
        [(1, ⟨0, maxDT⟩)] 1 50 = false := by
  refine ⟨by decide, ?_, by decide⟩
  intro out hout
  rw [show mixin_visibility
      ⟨1, Visibility.after_close, Visibility.after_close, QOrder.created⟩
      (some ⟨0, maxDT⟩) ⟨some 0, some 10, 0, true, false, false⟩ 50 true =
      ReprOut.boolVal false from by decide] at hout
  exact ReprOut.noConfusion hout

/-- One lifecycle operation never clears or changes a set `end_time`. -/
theorem stepOp_end_time_mono (cfg : QuizCfg)
    (shuffle : List Question → List Question) (op : QuizOp) (st : SubState)
    (t : Nat) (h : st.sub.end_time = some t) :
    ∃ st', stepOp cfg shuffle (some st) op = some st' ∧
      st'.sub.end_time = some t := by
  cases op with
  | startOp now => exact ⟨st, rfl, h⟩
  | submitOp payload now =>
    by_cases hsub : st.sub.is_submitted
    · exact ⟨st, by simp [stepOp, create_submission, hsub], h⟩
    · have hsub' : st.sub.is_submitted = false := by simpa using hsub
      have hto : is_timed_out cfg.settings.timer_minutes st.sub now = true :=
        is_timed_out_of_end_time _ _ _ hsub' (by rw [h]; rfl)
      exact ⟨st, by simp [stepOp, create_submission, hsub', hto, h], h⟩
  | updateOp payload => exact ⟨_, rfl, h⟩
  | releaseOp req =>
    refine ⟨_, rfl, ?_⟩
    show ((release_all_quiz_results cfg.settings req [st.sub]).1.headD
      st.sub).end_time = some t
    simp only [release_all_quiz_results]
    repeat' split
    all_goals simp [releaseUpd_end_time, h]

/-- C6: once `end_time` is set, no sequence of start / answer-update /
submit (including its timeout auto-finalization) / release operations ever
clears or changes it. -/
theorem C6_end_time_write_once (cfg : QuizCfg)
    (shuffle : List Question → List Question) (ops : List QuizOp)
    (st : SubState) (t : Nat) (h : st.sub.end_time = some t) :
    (runOps cfg shuffle (some st) ops).map (fun s => s.sub.end_time) =
      some (some t) := by
  induction ops generalizing st with
  | nil => simp [runOps, h]
  | cons op ops ih =>
    obtain ⟨st1, hstep, ht1⟩ := stepOp_end_time_mono cfg shuffle op st t h
    unfold runOps
    rw [List.foldl_cons, hstep]
    exact ih st1 ht1

/-- Witness for `C6_end_time_write_once`: a finalized attempt keeps
`end_time = 60` across a submit retry, a release and a start call. -/
theorem C6_witness :
    (runOps ⟨⟨1, Visibility.manual, Visibility.manual, QOrder.created⟩, []⟩
        id
        (some ⟨⟨some 0, some 60, 0, true, false, false⟩, []⟩)
        [QuizOp.submitOp [] 99,
          QuizOp.releaseOp ⟨true, true, false, false⟩,
          QuizOp.startOp 5]).map (fun s => s.sub.end_time) =
      some (some 60) :=
  C6_end_time_write_once
    ⟨⟨1, Visibility.manual, Visibility.manual, QOrder.created⟩, []⟩ id
    [QuizOp.submitOp [] 99,
      QuizOp.releaseOp ⟨true, true, false, false⟩,
      QuizOp.startOp 5]
    ⟨⟨some 0, some 60, 0, true, false, false⟩, []⟩ 60 rfl

end Quizzes
